import Mathlib

/-!
# CURPSuite — verification of the CURP parser/validator

A shallow embedding of the CURP library (curp.py, features.py, chars.py,
estados.py) in Lean 4.  Strings are modelled as `List Char`; Python methods
of the `CURP` class become functions of the 18-character code.  The
`altisonantes` (profanity) table module is not part of the sources at hand
and is modelled from the specification.
-/

set_option autoImplicit false

namespace CURPSuite

/-- Models Python `str.upper` restricted to the character domain of this
program (ASCII letters plus the Spanish accented letters that occur in
Mexican names). -/
def pyUpperChar (c : Char) : Char :=
  if 'a' ≤ c ∧ c ≤ 'z' then Char.ofNat (c.toNat - 32)
  else if c = 'á' then 'Á'
  else if c = 'é' then 'É'
  else if c = 'í' then 'Í'
  else if c = 'ó' then 'Ó'
  else if c = 'ú' then 'Ú'
  else if c = 'ü' then 'Ü'
  else if c = 'ñ' then 'Ñ'
  else c

/-- Models `unidecode.unidecode` restricted to the character domain of this
program: accented uppercase vowels fold to plain vowels, `Ñ` to `N`, the
right single quotation mark (U+2019) to the ASCII apostrophe; everything
else (ASCII) is left unchanged.  Applied after `pyUpperChar`, so only
uppercase accented forms need folding. -/
def uniChar (c : Char) : Char :=
  if c = 'Á' then 'A'
  else if c = 'É' then 'E'
  else if c = 'Í' then 'I'
  else if c = 'Ó' then 'O'
  else if c = 'Ú' then 'U'
  else if c = 'Ü' then 'U'
  else if c = 'Ñ' then 'N'
  else if c = Char.ofNat 8217 then Char.ofNat 39
  else c

/-- Embeds `unidecode(word.upper())` as used for the ignored-word checks in
`CURP.nombre_completo_valido` and `CURP.nombre_valido`. -/
def uniUp (w : List Char) : List Char :=
  (w.map pyUpperChar).map uniChar

/-- Embeds `word.upper()` on a whole word. -/
def upperL (w : List Char) : List Char :=
  w.map pyUpperChar

/-- Whitespace in the sense of Python `str.split()` (the characters that can
occur in our inputs). -/
def isPySpace (c : Char) : Bool :=
  c == ' ' || c == '\t' || c == '\n' || c == '\r'

/-- Python `str.split()`: split on runs of whitespace, dropping empty
pieces.  The first argument accumulates the current (reversed) piece. -/
def splitWsAux : List Char → List Char → List (List Char)
  | acc, [] => if acc.isEmpty then [] else [acc.reverse]
  | acc, c :: cs =>
    if isPySpace c then
      if acc.isEmpty then splitWsAux [] cs else acc.reverse :: splitWsAux [] cs
    else splitWsAux (c :: acc) cs

def splitWs (w : List Char) : List (List Char) :=
  splitWsAux [] w

/-- Embeds `' '.join(pieces)`. -/
def joinSpace : List (List Char) → List Char
  | [] => []
  | [p] => p
  | p :: q :: ps => p ++ ' ' :: joinSpace (q :: ps)

/-! ## WordFeatures (features.py) -/

/-- Embeds `WordFeatures._vowels`. -/
def wfVowels : List Char := "AEIOU".data

/-- Embeds `WordFeatures._consonants` (the literal `Ñ` of the source charset never
survives normalisation, but is kept for faithfulness). -/
def wfConsonants : List Char := "BCDFGHJKLMNÑPQRSTVWXYZ".data

/-- Embeds `WordFeatures._find_char`: first character of `word` that belongs to
`charset`, else `"X"`. -/
def findChar (charset : List Char) : List Char → Char
  | [] => 'X'
  | c :: cs => if c ∈ charset then c else findChar charset cs

/-- The list comprehension
`[w for w in pieces[:-1] if w not in ignored_words] + [pieces[-1]]`
of `WordFeatures.__init__` (for nonempty `pieces`): drop ignored words
except that the final piece is always retained. -/
def filteredPieces (ignored : List (List Char)) : List (List Char) → List (List Char)
  | [] => []
  | [p] => [p]
  | p :: q :: ps =>
    if p ∈ ignored then filteredPieces ignored (q :: ps)
    else p :: filteredPieces ignored (q :: ps)

/-- The normalisation applied to the input of `WordFeatures.__init__`:
`unidecode(word.upper().replace("Ñ", "X"))` followed by replacing every
special character with a space. -/
def wfNormalize (w : List Char) (specialChars : List Char) : List Char :=
  ((((w.map pyUpperChar).map fun c => if c = 'Ñ' then 'X' else c).map uniChar).map
    fun c => if c ∈ specialChars then ' ' else c)

structure WordFeatures where
  char : Char
  vowel : Char
  consonant : Char
deriving DecidableEq, Repr

/-- Embeds `WordFeatures.__init__`.  When the split yields no pieces, `char` stays
`"X"` and vowel/consonant are searched in `word[1:]` of the (all-blank)
normalised text; otherwise the first piece surviving the ignored-word
filter is used. -/
def word_features (word : List Char) (ignoredWords : List (List Char))
    (specialChars : List Char) : WordFeatures :=
  let w := wfNormalize word specialChars
  match filteredPieces ignoredWords (splitWs w) with
  | [] => ⟨'X', findChar wfVowels (w.drop 1), findChar wfConsonants (w.drop 1)⟩
  | p :: _ => ⟨p.headD 'X', findChar wfVowels (p.drop 1), findChar wfConsonants (p.drop 1)⟩

/-! ## Constant tables (curp.py class attributes) -/

/-- Embeds `CURP._ignored_words`. -/
def ignored_words : List (List Char) :=
  ["DA".data, "DAS".data, "DE".data, "DEL".data, "DER".data, "DI".data,
   "DIE".data, "DD".data, "EL".data, "LA".data, "LOS".data, "LAS".data,
   "LE".data, "LES".data, "MAC".data, "MC".data, "VAN".data, "VON".data,
   "Y".data]

/-- Embeds `CURP._special_chars`: `/ - . ' ’` (the apostrophe and the right single
quotation mark are written by code point). -/
def special_chars : List Char :=
  ['/', '-', '.', Char.ofNat 39, Char.ofNat 8217]

/-- Embeds `CURP._ignored_names`. -/
def ignored_names : List (List Char) :=
  ["MARIA".data, "MA".data, "MA.".data, "JOSE".data, "J".data, "J.".data]

/-- Modelled from the spec: the `altisonantes` module (profanity table) is
not among the sources at hand — only the spec describes it.  Each entry
maps a 4-letter censored skeleton (letter `X` at offset 1 standing in for a
forbidden vowel) to the set of real vowels the censoring replaced; the
spec's documented entry is `"BXCA" → {"A"}`. -/
def altisonantes : List (List Char × List Char) :=
  [("BXCA".data, ['A'])]

/-- Association-list lookup, modelling Python dict lookup. -/
def dictLookup {β : Type} (k : List Char) : List (List Char × β) → Option β
  | [] => none
  | (k', v) :: rest => if k' == k then some v else dictLookup k rest

/-- Embeds `CURP._inc_uncensored`: the uncensored forms
`k[0] + vowel + k[2:]` for every table entry and vowel. -/
def inc_uncensored : List (List Char) :=
  altisonantes.foldr
    (fun kv acc => (kv.2.map fun v => kv.1.take 1 ++ v :: kv.1.drop 2) ++ acc) []

/-- Embeds `string.ascii_uppercase`. -/
def ascii_uppercase : List Char := "ABCDEFGHIJKLMNOPQRSTUVWXYZ".data

/-- Embeds `estados.estados`: region code ↦ (name, optional ISO code). -/
def estados : List (List Char × (List Char × Option (List Char))) :=
  [("AS".data, ("Aguascalientes".data, some "MX-AGU".data)),
   ("BC".data, ("Baja California".data, some "MX-BCN".data)),
   ("BS".data, ("Baja California Sur".data, some "MX-BCS".data)),
   ("CC".data, ("Campeche".data, some "MX-CAM".data)),
   ("CL".data, ("Coahuila de Zaragoza".data, some "MX-COA".data)),
   ("CM".data, ("Colima".data, some "MX-COL".data)),
   ("CS".data, ("Chiapas".data, some "MX-CHP".data)),
   ("CH".data, ("Chihuahua".data, some "MX-CHH".data)),
   ("DF".data, ("Ciudad de México".data, some "MX-CMX".data)),
   ("DG".data, ("Durango".data, some "MX-DUR".data)),
   ("GT".data, ("Guanajuato".data, some "MX-GUA".data)),
   ("GR".data, ("Guerrero".data, some "MX-GRO".data)),
   ("HG".data, ("Hidalgo".data, some "MX-HID".data)),
   ("JC".data, ("Jalisco".data, some "MX-JAL".data)),
   ("MC".data, ("México".data, some "MX-MEX".data)),
   ("MN".data, ("Michoacán de Ocampo".data, some "MX-MIC".data)),
   ("MS".data, ("Morelos".data, some "MX-MOR".data)),
   ("NT".data, ("Nayarit".data, some "MX-NAY".data)),
   ("NL".data, ("Nuevo León".data, some "MX-NLE".data)),
   ("OC".data, ("Oaxaca".data, some "MX-OAX".data)),
   ("PL".data, ("Puebla".data, some "MX-PUE".data)),
   ("QT".data, ("Querétaro".data, some "MX-QUE".data)),
   ("QR".data, ("Quintana Roo".data, some "MX-ROO".data)),
   ("SP".data, ("San Luis Potosí".data, some "MX-SLP".data)),
   ("SL".data, ("Sinaloa".data, some "MX-SIN".data)),
   ("SR".data, ("Sonora".data, some "MX-SON".data)),
   ("TC".data, ("Tabasco".data, some "MX-TAB".data)),
   ("TS".data, ("Tamaulipas".data, some "MX-TAM".data)),
   ("TL".data, ("Tlaxcala".data, some "MX-TLA".data)),
   ("VZ".data, ("Veracruz de Ignacio de la Llave".data, some "MX-VER".data)),
   ("YN".data, ("Yucatán".data, some "MX-YUC".data)),
   ("ZS".data, ("Zacatecas".data, some "MX-ZAC".data)),
   ("NE".data, ("Extranjero".data, none))]

/-- Embeds `CURP._CHARSET`: digits, `A`–`N`, a second `N` holding the conceptual
`Ñ` slot, then `O`–`Z`.  `str.index` returns the first occurrence. -/
def CHARSET : List Char := "0123456789ABCDEFGHIJKLMNNOPQRSTUVWXYZ".data

/-- Embeds `str.index`: position of the first occurrence, `none` when absent
(Python raises `ValueError`). -/
def strIndex (c : Char) : List Char → Option Nat
  | [] => none
  | x :: xs => if x = c then some 0 else (strIndex c xs).map (· + 1)

/-! ## Exceptions (exceptions.py) and result data -/

/-- The exception taxonomy of exceptions.py.  `valueError` is the base
class `CURPValueError` raised directly (as opposed to through one of its
subclasses). -/
inductive CURPError where
  | lengthError
  | verificationError
  | valueError
  | nameError
  | firstSurnameError
  | secondSurnameError
  | fullNameError
  | dateError
  | sexError
  | regionError
deriving DecidableEq, Repr

/-- Embeds `Sexo` (IntEnum). -/
inductive Sexo where
  | DESCONOCIDO
  | HOMBRE
  | MUJER
deriving DecidableEq, Repr

/-- The state of a fully constructed `CURP` object: the code, the parsed
birth date `(year, month, day)`, sex, birth region record, and the
optional validated name parts. -/
structure CURPData where
  curp : List Char
  birthDate : Nat × Nat × Nat
  sex : Sexo
  birthPlace : List Char × Option (List Char)
  name : Option (List Char)
  firstSurname : Option (List Char)
  secondSurname : Option (List Char)
deriving DecidableEq, Repr

/-! ## Per-part name validators (curp.py) -/

/-- Embeds `CURP.nombre_valido`: drop a leading common first name (when at least
two pieces exist), then compare `char` and `consonant` of the remaining
word-group with code offsets 3 (`NAME_CHAR`) and 15 (`NAME_CONSONANT`). -/
def nombre_valido (c : List Char) (name : List Char) : Bool :=
  let pieces := splitWs (upperL name)
  let pieces :=
    match pieces with
    | p :: q :: ps => if (p.map uniChar) ∈ ignored_names then q :: ps else p :: q :: ps
    | l => l
  let wf := word_features (joinSpace pieces) ignored_words special_chars
  (c.getD 3 ' ' == wf.char) && (c.getD 15 ' ' == wf.consonant)

/-- Embeds `CURP.primer_apellido_valido`: `char`/`consonant` against offsets 0 and
13; on success additionally the vowel against offset 1, with the
profanity-table fallback on the first four code characters. -/
def primer_apellido_valido (c : List Char) (primer_apellido : List Char) : Bool :=
  let curpStart := c.take 4
  let wf := word_features primer_apellido ignored_words special_chars
  let valid := (c.getD 0 ' ' == wf.char) && (c.getD 13 ' ' == wf.consonant)
  if valid then
    let valid := c.getD 1 ' ' == wf.vowel
    match dictLookup curpStart altisonantes with
    | some vowels => vowels.foldl (fun v vw => v || (vw == wf.vowel)) valid
    | none => valid
  else valid

/-- Embeds `CURP.segundo_apellido_valido`: `char`/`consonant` against offsets 2
(`SURNAME_B_CHAR`) and 14 (`SURNAME_B_CONSONANT`). -/
def segundo_apellido_valido (c : List Char) (segundo_apellido : List Char) : Bool :=
  let wf := word_features segundo_apellido ignored_words special_chars
  (c.getD 2 ' ' == wf.char) && (c.getD 14 ' ' == wf.consonant)

/-- Embeds `CURP.segundo_apellido_vacio`. -/
def segundo_apellido_vacio (c : List Char) : Bool :=
  segundo_apellido_valido c []

/-- Embeds `CURP.primer_apellido_vacio`: a first surname can only be empty when
the second one is empty too. -/
def primer_apellido_vacio (c : List Char) : Bool :=
  segundo_apellido_vacio c && primer_apellido_valido c []

/-! ## The full-name tokenizing state machine (`CURP.nombre_completo_valido`) -/

/-- Embeds `CURP._NameParseState`. -/
inductive NameParseState where
  | NONE
  | GIVEN_NAMES
  | FIRST_SURNAME
  | SECOND_SURNAME
deriving DecidableEq, Repr

/-- Successor in the `state_gen` generator.  The matcher for
`SECOND_SURNAME` is constant `false`, so its successor is never requested
by the source (Python would raise `StopIteration`); we map it to itself. -/
def nextState : NameParseState → NameParseState
  | .NONE => .GIVEN_NAMES
  | .GIVEN_NAMES => .FIRST_SURNAME
  | .FIRST_SURNAME => .SECOND_SURNAME
  | .SECOND_SURNAME => .SECOND_SURNAME

/-- The `validation` dictionary of `nombre_completo_valido`. -/
def nclValidation (c : List Char) : NameParseState → List Char → Bool
  | .NONE => nombre_valido c
  | .GIVEN_NAMES => primer_apellido_valido c
  | .FIRST_SURNAME => segundo_apellido_valido c
  | .SECOND_SURNAME => fun _ => false

/-- Loop state of `nombre_completo_valido`: the four word buckets of the
`names` dictionary, the `ignored_buffer`, and the current parse state. -/
structure NCAcc where
  bNone : List (List Char)
  bGiven : List (List Char)
  bFirst : List (List Char)
  bSecond : List (List Char)
  buffer : List (List Char)
  state : NameParseState
deriving DecidableEq, Repr

def initAcc : NCAcc := ⟨[], [], [], [], [], .NONE⟩

/-- Embeds `names[st].extend(ws)`. -/
def bucketExtend (acc : NCAcc) (st : NameParseState) (ws : List (List Char)) : NCAcc :=
  match st with
  | .NONE => { acc with bNone := acc.bNone ++ ws }
  | .GIVEN_NAMES => { acc with bGiven := acc.bGiven ++ ws }
  | .FIRST_SURNAME => { acc with bFirst := acc.bFirst ++ ws }
  | .SECOND_SURNAME => { acc with bSecond := acc.bSecond ++ ws }

/-- Flush the ignored buffer into bucket `st`, append `word` there, clear
the buffer and move to state `st`. -/
def nclPlace (acc : NCAcc) (st : NameParseState) (word : List Char) : NCAcc :=
  bucketExtend { acc with state := st, buffer := [] } st (acc.buffer ++ [word])

/-- One iteration of the word loop of `nombre_completo_valido`; `none`
models the early `return False`. -/
def nclStep (c : List Char) (acc : NCAcc) (word : List Char) : Option NCAcc :=
  if uniUp word ∈ ignored_words then
    some { acc with buffer := acc.buffer ++ [word] }
  else if nclValidation c acc.state word then
    some (nclPlace acc (nextState acc.state) word)
  else if acc.state = .NONE ∧ uniUp word ∉ ignored_names then
    none
  else
    some (nclPlace acc acc.state word)

/-- The word loop. -/
def nclRun (c : List Char) (acc : NCAcc) : List (List Char) → Option NCAcc
  | [] => some acc
  | w :: ws =>
    match nclStep c acc w with
    | none => none
    | some acc' => nclRun c acc' ws

/-- The epilogue of `nombre_completo_valido`: flush the leftover buffer,
decide validity from the final state (with the empty-surname rules), and
join the buckets (the `NONE` and `GIVEN_NAMES` buckets merge into the
given-name component). -/
def nclFinalize (c : List Char) (acc : NCAcc) :
    Option (List Char × List Char × List Char) :=
  let acc := bucketExtend acc acc.state acc.buffer
  let valid :=
    match acc.state with
    | .SECOND_SURNAME => true
    | .FIRST_SURNAME => segundo_apellido_vacio c
    | .GIVEN_NAMES => primer_apellido_vacio c
    | .NONE => false
  if valid then
    some (joinSpace (acc.bNone ++ acc.bGiven), joinSpace acc.bFirst, joinSpace acc.bSecond)
  else none

/-- Embeds `CURP.nombre_completo_valido`: `some` of the name 3-tuple, or `none`
for `False`. -/
def nombre_completo_valido (c : List Char) (nombre_completo : List Char) :
    Option (List Char × List Char × List Char) :=
  (nclRun c initAcc (splitWs nombre_completo)).bind (nclFinalize c)

/-! ## Checksum (`CURP._verification_sum`, `_sum_to_verify_digit`,
`_validate_verify`) -/

/-- The weighted sum over `curp[-2::-1]` with weights counted up from 2,
i.e. over the reversed first 17 characters; `none` when some character is
outside the charset (Python `ValueError`). -/
def sumWithWeights (w : Nat) : List Char → Option Nat
  | [] => some 0
  | ch :: t =>
    match strIndex ch CHARSET, sumWithWeights (w + 1) t with
    | some v, some r => some (w * v + r)
    | _, _ => none

/-- Embeds `CURP._sum_to_verify_digit`: `d = sm % 10; d = 10 - d if d else d;
str(d)` (a single digit character). -/
def sum_to_verify_digit (sm : Nat) : Char :=
  let d := sm % 10
  Char.ofNat (48 + (if d ≠ 0 then 10 - d else d))

/-- Embeds `CURP._validate_verify` combined with `_verification_sum`: computes the
weighted sum of the first 17 characters, checks the last character against
the charset, and compares the derived digit with `curp[17]`.  `.error
.valueError` models the `CURPValueError` of `_verification_sum`. -/
def validate_verify (curp : List Char) : Except CURPError Bool :=
  match sumWithWeights 2 curp.dropLast.reverse with
  | none => Except.error CURPError.valueError
  | some s =>
    match strIndex ((curp.getLast?).getD ' ') CHARSET with
    | none => Except.error CURPError.valueError
    | some _ => Except.ok (sum_to_verify_digit s == curp.getD 17 ' ')

/-! ## Birth date (`CURP._parse_birth_date`) -/

/-- Python `int` on a two-character slice of the code.  By the time
`_parse_birth_date` runs, `_validate_verify` has succeeded, so both
characters are digits or uppercase letters; on that domain `int` succeeds
exactly when both are digits. -/
def int2 (a b : Char) : Option Nat :=
  if a.isDigit && b.isDigit then some ((a.toNat - 48) * 10 + (b.toNat - 48))
  else none

def is_leap (y : Nat) : Bool :=
  (y % 4 == 0 && y % 100 != 0) || (y % 400 == 0)

def days_in_month (y m : Nat) : Nat :=
  if m = 2 then (if is_leap y then 29 else 28)
  else if m = 4 ∨ m = 6 ∨ m = 9 ∨ m = 11 then 30
  else 31

/-- Validity domain of `datetime.date(year, month, day)`. -/
def valid_date (y m d : Nat) : Bool :=
  decide (1 ≤ y) && decide (y ≤ 9999) && decide (1 ≤ m) && decide (m ≤ 12) &&
    decide (1 ≤ d) && decide (d ≤ days_in_month y m)

/-- The century heuristic of `_parse_birth_date`: raw comparison of the
2-digit year with today's year, then the homoclave override (digit forces
the 1900s, a letter bumps a computed 19 to 20). -/
def birth_century (todayYear : Nat) (homonymy : Char) (year : Nat) : Nat :=
  let century := todayYear / 100
  let century := if year > todayYear % 100 then century - 1 else century
  if homonymy.isDigit then 19
  else if century = 19 then 20
  else century

/-- Embeds `CURP._parse_birth_date`, parameterised by today's year
(`date.today().year`).  `.valueError` models the `CURPValueError` for
non-numeric substrings, `.dateError` the `CURPDateError` for an invalid
calendar date. -/
def parse_birth_date (todayYear : Nat) (c : List Char) :
    Except CURPError (Nat × Nat × Nat) :=
  match int2 (c.getD 8 ' ') (c.getD 9 ' '), int2 (c.getD 6 ' ') (c.getD 7 ' '),
      int2 (c.getD 4 ' ') (c.getD 5 ' ') with
  | some day, some month, some year =>
    let y := year + (birth_century todayYear (c.getD 16 ' ') year) * 100
    if valid_date y month day then Except.ok (y, month, day)
    else Except.error CURPError.dateError
  | _, _, _ => Except.error CURPError.valueError

/-! ## Sex and region (`CURP._parse_sex`, `CURP._parse_region`) -/

/-- Embeds `CURP._parse_sex`: the `_sexes` dictionary lookup with default
`DESCONOCIDO`, which (being falsy) raises `CURPSexError`. -/
def parse_sex (c : List Char) : Except CURPError Sexo :=
  let sx := if c.getD 10 ' ' = 'H' then Sexo.HOMBRE
            else if c.getD 10 ' ' = 'M' then Sexo.MUJER
            else Sexo.DESCONOCIDO
  if sx = Sexo.DESCONOCIDO then Except.error CURPError.sexError else Except.ok sx

/-- Embeds `CURP._parse_region`. -/
def parse_region (c : List Char) : Except CURPError (List Char × Option (List Char)) :=
  match dictLookup [c.getD 11 ' ', c.getD 12 ' '] estados with
  | some r => Except.ok r
  | none => Except.error CURPError.regionError

/-! ## Remaining character-class validation (`CURP._validate_name_chars`) -/

/-- Embeds `CURP._validate_name_chars`: offset 1 must be a vowel or `X`; offsets
3/15, 0/13, 2/14 must be uppercase-letter/consonant pairs; and the first
four characters must not spell an uncensored inconvenient word. -/
def validate_name_chars (c : List Char) : Bool :=
  let vowelsX := wfVowels ++ ['X']
  let valid := decide ((c.getD 1 ' ') ∈ vowelsX)
  let valid := valid &&
    (decide ((c.getD 3 ' ') ∈ ascii_uppercase) && decide ((c.getD 15 ' ') ∈ wfConsonants))
  let valid := valid &&
    (decide ((c.getD 0 ' ') ∈ ascii_uppercase) && decide ((c.getD 13 ' ') ∈ wfConsonants))
  let valid := valid &&
    (decide ((c.getD 2 ' ') ∈ ascii_uppercase) && decide ((c.getD 14 ' ') ∈ wfConsonants))
  if c.take 4 ∈ inc_uncensored then false else valid

/-! ## The constructor (`CURP.__init__`) -/

/-- Embeds `self._name = nombre.upper()` after `nombre_valido`, else
`CURPNameError`; `none` for an omitted argument. -/
def check_nombre (c : List Char) : Option (List Char) → Except CURPError (Option (List Char))
  | none => Except.ok none
  | some nm =>
    if nombre_valido c nm then Except.ok (some (upperL nm))
    else Except.error CURPError.nameError

def check_primer (c : List Char) : Option (List Char) → Except CURPError (Option (List Char))
  | none => Except.ok none
  | some pa =>
    if primer_apellido_valido c pa then Except.ok (some (upperL pa))
    else Except.error CURPError.firstSurnameError

def check_segundo (c : List Char) : Option (List Char) → Except CURPError (Option (List Char))
  | none => Except.ok none
  | some sa =>
    if segundo_apellido_valido c sa then Except.ok (some (upperL sa))
    else Except.error CURPError.secondSurnameError

/-- The name-validation tail of `CURP.__init__`: the three optional parts
in order, then — only when none of the three was supplied (`no_pieces`) —
the full name. -/
def curp_init_names (c : List Char) (bd : Nat × Nat × Nat) (sx : Sexo)
    (rg : List Char × Option (List Char))
    (nombre primer_ap segundo_ap nombre_comp : Option (List Char)) :
    Except CURPError CURPData :=
  match check_nombre c nombre with
  | Except.error e => Except.error e
  | Except.ok nf =>
    match check_primer c primer_ap with
    | Except.error e => Except.error e
    | Except.ok pf =>
      match check_segundo c segundo_ap with
      | Except.error e => Except.error e
      | Except.ok sf =>
        if nombre = none ∧ primer_ap = none ∧ segundo_ap = none then
          match nombre_comp with
          | none => Except.ok ⟨c, bd, sx, rg, nf, pf, sf⟩
          | some fn =>
            match nombre_completo_valido c fn with
            | some (x, y, z) =>
              Except.ok ⟨c, bd, sx, rg, some (upperL x), some (upperL y), some (upperL z)⟩
            | none => Except.error CURPError.fullNameError
        else Except.ok ⟨c, bd, sx, rg, nf, pf, sf⟩

/-- Embeds `CURP.__init__`, parameterised by today's year: length check, checksum
verification, birth date, sex, region, remaining character classes, then
name validation. -/
def curp_init (todayYear : Nat) (c : List Char)
    (nombre primer_ap segundo_ap nombre_comp : Option (List Char)) :
    Except CURPError CURPData :=
  if c.length ≠ 18 then Except.error CURPError.lengthError
  else
    match validate_verify c with
    | Except.error e => Except.error e
    | Except.ok b =>
      if !b then Except.error CURPError.verificationError
      else
        match parse_birth_date todayYear c with
        | Except.error e => Except.error e
        | Except.ok bd =>
          match parse_sex c with
          | Except.error e => Except.error e
          | Except.ok sx =>
            match parse_region c with
            | Except.error e => Except.error e
            | Except.ok rg =>
              if !validate_name_chars c then Except.error CURPError.valueError
              else curp_init_names c bd sx rg nombre primer_ap segundo_ap nombre_comp

deriving instance DecidableEq for Except

/-! ## Spec-side definitions for the checksum claim (C5)

These follow the wording of the specification, to be compared with the
source-side `validate_verify` above. -/

/-- The claim's character value: digits map to themselves, `A`–`N` to their
base-36 values 10–23, and every letter after `N` to its base-36 value plus
one (O–Z to 25–36), reserving the virtual `Ñ` slot. -/
def claimCharValue (ch : Char) : Nat :=
  if ch.isDigit then ch.toNat - 48
  else if ch.toNat ≤ 78 then ch.toNat - 55
  else ch.toNat - 54

/-- Weighted sum with weights counting UP from `w` (helper relating the
source's reversed traversal to the claim's formula). -/
def claimWeightedAsc (w : Nat) : List Char → Nat
  | [] => 0
  | ch :: t => w * claimCharValue ch + claimWeightedAsc (w + 1) t

/-- The claim's weighted sum: weight `w` for the head, `w - 1` for the
next, … — `claimWeightedDesc 18 (code.take 17)` is
`Σ over indices 0..16 of (18 − index) × value(code[index])`. -/
def claimWeightedDesc (w : Nat) : List Char → Nat
  | [] => 0
  | ch :: t => w * claimCharValue ch + claimWeightedDesc (w - 1) t

/-- The claim's verification digit as a character: `0` when the sum is
divisible by 10, else `10 − (sum mod 10)`. -/
def claimDigitChar (s : Nat) : Char :=
  Char.ofNat (48 + (if s % 10 = 0 then 0 else 10 - s % 10))

/-! ## Helper lemmas -/

theorem strIndex_none {ch : Char} : ∀ {l : List Char}, ch ∉ l → strIndex ch l = none := by
  intro l
  induction l with
  | nil => intro _; rfl
  | cons x xs ih =>
    intro h
    have hx : ¬x = ch := fun he => h (he ▸ List.mem_cons_self x xs)
    have hxs : ch ∉ xs := fun hm => h (List.mem_cons_of_mem x hm)
    simp [strIndex, hx, ih hxs]

theorem strIndex_charset_eq_claim :
    ∀ ch ∈ CHARSET, strIndex ch CHARSET = some (claimCharValue ch) := by decide

theorem sumWithWeights_eq_claim :
    ∀ (l : List Char), (∀ x ∈ l, x ∈ CHARSET) →
      ∀ w, sumWithWeights w l = some (claimWeightedAsc w l) := by
  intro l
  induction l with
  | nil => intro _ w; rfl
  | cons ch t ih =>
    intro h w
    have hch := strIndex_charset_eq_claim ch (h ch (List.mem_cons_self ch t))
    have ht := ih (fun x hx => h x (List.mem_cons_of_mem ch hx)) (w + 1)
    simp [sumWithWeights, hch, ht, claimWeightedAsc]

theorem sumWithWeights_none :
    ∀ (l : List Char) (w : Nat), (∃ x ∈ l, x ∉ CHARSET) → sumWithWeights w l = none := by
  intro l
  induction l with
  | nil => intro w h; rcases h with ⟨x, hx, _⟩; cases hx
  | cons ch t ih =>
    intro w h
    rcases h with ⟨x, hx, hnx⟩
    rcases List.mem_cons.mp hx with he | hm
    · subst he
      simp [sumWithWeights, strIndex_none hnx]
    · have ht := ih (w + 1) ⟨x, hm, hnx⟩
      cases hsi : strIndex ch CHARSET <;> simp [sumWithWeights, hsi, ht]

theorem claimWeightedAsc_append (w : Nat) (xs : List Char) (x : Char) :
    claimWeightedAsc w (xs ++ [x]) =
      claimWeightedAsc w xs + (w + xs.length) * claimCharValue x := by
  induction xs generalizing w with
  | nil => simp [claimWeightedAsc]
  | cons y ys ih =>
    simp only [List.cons_append, claimWeightedAsc, List.length_cons, List.append_eq]
    rw [ih]
    ring

theorem claimWeightedAsc_reverse (l : List Char) :
    claimWeightedAsc 2 l.reverse = claimWeightedDesc (l.length + 1) l := by
  induction l with
  | nil => rfl
  | cons ch t ih =>
    have h2 : t.length + 1 + 1 - 1 = t.length + 1 := by omega
    simp only [List.reverse_cons, claimWeightedAsc_append, ih, List.length_reverse,
      List.length_cons, claimWeightedDesc, h2]
    ring

theorem sum_to_verify_digit_eq_claim (s : Nat) : sum_to_verify_digit s = claimDigitChar s := by
  unfold sum_to_verify_digit claimDigitChar
  by_cases h : s % 10 = 0 <;> simp [h]

theorem char_beq_comm (a b : Char) : (a == b) = (b == a) := by
  by_cases h : a = b
  · subst h; rfl
  · have h' : ¬b = a := fun e => h e.symm
    simp [h, h']

/-- Claim C5: For every 18-character code over the valid charset, checksum
verification succeeds if and only if `code[17]` equals the digit character
computed (per the spec's formula) from `sum = Σ over indices 0..16 of
(18 − index) × value(code[index])`, with `value` mapping digits to
themselves, `A`–`N` to 10–23 and the letters after `N` to their base-36
value plus one; any of the 18 characters outside the charset instead makes
the computation fail with `CURPValueError`. -/
theorem C5_checksum (code : List Char) (h : code.length = 18) :
    ((∀ ch ∈ code, ch ∈ CHARSET) →
      validate_verify code =
        Except.ok (code.getD 17 ' ' == claimDigitChar (claimWeightedDesc 18 (code.take 17))))
    ∧ ((∃ ch ∈ code, ch ∉ CHARSET) →
      validate_verify code = Except.error CURPError.valueError) := by
  have hne : code ≠ [] := by
    intro he
    rw [he] at h
    simp at h
  have htake : code.dropLast = code.take 17 := by
    rw [List.dropLast_eq_take, h]
  have hlen : code.dropLast.length = 17 := by
    rw [List.length_dropLast, h]
  constructor
  · intro hall
    have hsub : ∀ x ∈ code.dropLast.reverse, x ∈ CHARSET := by
      intro x hx
      exact hall x (List.dropLast_subset code (List.mem_reverse.mp hx))
    have hsum := sumWithWeights_eq_claim code.dropLast.reverse hsub 2
    have hasc := claimWeightedAsc_reverse code.dropLast
    rw [hlen] at hasc
    have hlast : code.getLast?.getD ' ' = code.getLast hne := by
      rw [List.getLast?_eq_getLast code hne]
      rfl
    have hidx := strIndex_charset_eq_claim _ (hall _ (List.getLast_mem hne))
    unfold validate_verify
    rw [hsum, hasc, htake, hlast, hidx]
    show Except.ok (sum_to_verify_digit (claimWeightedDesc (17 + 1) (List.take 17 code)) ==
      code.getD 17 ' ') = _
    rw [sum_to_verify_digit_eq_claim, char_beq_comm]
  · intro hbad
    rcases hbad with ⟨ch, hch, hnch⟩
    have hdecomp := List.dropLast_append_getLast hne
    rw [← hdecomp] at hch
    rcases List.mem_append.mp hch with hdl | hlast
    · have hnone := sumWithWeights_none code.dropLast.reverse 2
        ⟨ch, List.mem_reverse.mpr hdl, hnch⟩
      unfold validate_verify
      rw [hnone]
    · have hche : ch = code.getLast hne := by
        rcases List.mem_singleton.mp hlast with rfl
        rfl
      have hlast? : code.getLast?.getD ' ' = code.getLast hne := by
        rw [List.getLast?_eq_getLast code hne]
        rfl
      have hsnone : strIndex (code.getLast?.getD ' ') CHARSET = none := by
        rw [hlast?, ← hche]
        exact strIndex_none hnch
      unfold validate_verify
      cases hs : sumWithWeights 2 code.dropLast.reverse with
      | none => rfl
      | some s => rw [hsnone]

/-- Witness for C5: the fixture code `POPC990709MGTSRL02` verifies (its
final digit matches the claim's formula), and replacing its final digit
with a character outside the charset makes verification fail with
`CURPValueError`. -/
theorem C5_checksum_witness :
    validate_verify ("POPC990709MGTSRL02".data) = Except.ok true ∧
    validate_verify ("POPC990709MGTSRL0!".data) = Except.error CURPError.valueError := by
  constructor
  · rw [(C5_checksum ("POPC990709MGTSRL02".data) (by decide)).1 (by decide)]
    decide
  · exact (C5_checksum ("POPC990709MGTSRL0!".data) (by decide)).2 (by decide)

/-- Claim C4: `WordFeatures` drops every piece belonging to the ignored-word
set except the final piece, which is always retained, and returns exactly
the spec's fixtures on `"ALVIRDE"`, `"DEL CASTILLO"`, `""` and `"ÑANDO"`
(tuples are `(char, vowel, consonant)`); an input that is itself an
ignored preposition, such as `"DAS"`, still yields its own features. -/
theorem C4_word_features :
    (∀ (ignored : List (List Char)) (ps : List (List Char)) (p : List Char),
        filteredPieces ignored (ps ++ [p]) =
          ps.filter (fun w => decide (w ∉ ignored)) ++ [p])
    ∧ word_features ("ALVIRDE".data) ignored_words special_chars = ⟨'A', 'I', 'L'⟩
    ∧ word_features ("DEL CASTILLO".data) ignored_words special_chars = ⟨'C', 'A', 'S'⟩
    ∧ word_features [] ignored_words special_chars = ⟨'X', 'X', 'X'⟩
    ∧ word_features ("ÑANDO".data) ignored_words special_chars = ⟨'X', 'A', 'N'⟩
    ∧ word_features ("DAS".data) ignored_words special_chars = ⟨'D', 'A', 'S'⟩ := by
  refine ⟨?_, by decide, by decide, by decide, by decide, by decide⟩
  intro ign ps p
  induction ps with
  | nil => simp [filteredPieces]
  | cons q qs ih =>
    cases qs with
    | nil => by_cases hq : q ∈ ign <;> simp [filteredPieces, hq]
    | cons r rs =>
      simp only [List.cons_append] at ih
      by_cases hq : q ∈ ign <;> simp [List.cons_append, filteredPieces, hq, ih]

set_option maxRecDepth 100000 in
/-- Claim C1: For each of the spec's literal full-name fixtures, construction
with the code and the full name succeeds (splitting the name as stated),
and `nombre_completo_valido` returns exactly the stated 3-tuple. -/
theorem C1_full_name_fixtures : ∀ todayYear : Nat,
    curp_init todayYear ("POPC990709MGTSRL02".data) none none none
        (some ("CLAUDIA LEONOR POSADA PEREZ".data)) =
      Except.ok ⟨"POPC990709MGTSRL02".data, (1999, 7, 9), Sexo.MUJER,
        ("Guanajuato".data, some ("MX-GUA".data)),
        some ("CLAUDIA LEONOR".data), some ("POSADA".data), some ("PEREZ".data)⟩
    ∧ nombre_completo_valido ("POPC990709MGTSRL02".data)
        ("CLAUDIA LEONOR POSADA PEREZ".data) =
      some ("CLAUDIA LEONOR".data, "POSADA".data, "PEREZ".data)
    ∧ curp_init todayYear ("MAGE981117MMNCRS05".data) none none none
        (some ("ESTEFANIA DE LOS DOLORES MACIAS GARCIA".data)) =
      Except.ok ⟨"MAGE981117MMNCRS05".data, (1998, 11, 17), Sexo.MUJER,
        ("Michoacán de Ocampo".data, some ("MX-MIC".data)),
        some ("ESTEFANIA DE LOS DOLORES".data), some ("MACIAS".data),
        some ("GARCIA".data)⟩
    ∧ nombre_completo_valido ("MAGE981117MMNCRS05".data)
        ("ESTEFANIA DE LOS DOLORES MACIAS GARCIA".data) =
      some ("ESTEFANIA DE LOS DOLORES".data, "MACIAS".data, "GARCIA".data)
    ∧ curp_init todayYear ("TAXA990915MNEMXM06".data) none none none
        (some ("AMBER NICOLE TAMAYO".data)) =
      Except.ok ⟨"TAXA990915MNEMXM06".data, (1999, 9, 15), Sexo.MUJER,
        ("Extranjero".data, none),
        some ("AMBER NICOLE".data), some ("TAMAYO".data), some []⟩
    ∧ nombre_completo_valido ("TAXA990915MNEMXM06".data) ("AMBER NICOLE TAMAYO".data) =
      some ("AMBER NICOLE".data, "TAMAYO".data, []) :=
  fun _ => ⟨rfl, rfl, rfl, rfl, rfl, rfl⟩

/-- Claim C8: For every input whose length is not 18, construction fails with
`CURPLengthError` — for all contents and name arguments, so no other check
runs and no other error type can be produced. -/
theorem C8_length (todayYear : Nat) (c : List Char)
    (nombre primer_ap segundo_ap nombre_comp : Option (List Char))
    (h : c.length ≠ 18) :
    curp_init todayYear c nombre primer_ap segundo_ap nombre_comp =
      Except.error CURPError.lengthError := by
  unfold curp_init
  rw [if_pos h]

/-- Witness for C8: the 17-character fixture `MACD990727MMMCRRN0` is
rejected with `CURPLengthError` even alongside a name argument. -/
theorem C8_length_witness :
    curp_init 2026 ("MACD990727MMMCRRN".data) none none none
        (some ("ANA".data)) = Except.error CURPError.lengthError :=
  C8_length 2026 ("MACD990727MMMCRRN".data) none none none
    (some ("ANA".data)) (by decide)

/-- Claim C6: A digit homoclave (offset 16) forces the birth century to 19
regardless of the comparison of the 2-digit year with today's year; a
letter homoclave bumps a comparison-derived century of 19 to 20. -/
theorem C6_century (todayYear : Nat) (c : List Char) (day month year : Nat)
    (hd : int2 (c.getD 8 ' ') (c.getD 9 ' ') = some day)
    (hm : int2 (c.getD 6 ' ') (c.getD 7 ' ') = some month)
    (hy : int2 (c.getD 4 ' ') (c.getD 5 ' ') = some year) :
    ((c.getD 16 ' ').isDigit = true →
      parse_birth_date todayYear c =
        if valid_date (year + 1900) month day then Except.ok (year + 1900, month, day)
        else Except.error CURPError.dateError)
    ∧ ((c.getD 16 ' ').isDigit = false →
      (if year > todayYear % 100 then todayYear / 100 - 1 else todayYear / 100) = 19 →
      parse_birth_date todayYear c =
        if valid_date (year + 2000) month day then Except.ok (year + 2000, month, day)
        else Except.error CURPError.dateError) := by
  constructor
  · intro hdig
    have hc : birth_century todayYear (c.getD 16 ' ') year = 19 := by
      unfold birth_century
      rw [hdig]
      simp
    have h19 : year + 19 * 100 = year + 1900 := by norm_num
    simp only [parse_birth_date, hd, hm, hy, hc, h19]
  · intro hdig hcent
    have hc : birth_century todayYear (c.getD 16 ' ') year = 20 := by
      simp only [birth_century]
      rw [hdig, hcent]
      simp
    have h20 : year + 20 * 100 = year + 2000 := by norm_num
    simp only [parse_birth_date, hd, hm, hy, hc, h20]

/-- Witness for C6: with today's year 2026, digit homoclave and year
digits "05" give birth year 1905, and a letter homoclave with year digits
"99" (comparison-derived century 19) gives 2099. -/
theorem C6_century_witness :
    parse_birth_date 2026 ("AAAA050101HDFBBB0Z".data) = Except.ok (1905, 1, 1) ∧
    parse_birth_date 2026 ("AAAA990101HDFBBBAZ".data) = Except.ok (2099, 1, 1) := by
  constructor
  · rw [(C6_century 2026 ("AAAA050101HDFBBB0Z".data) 1 1 5 (by decide) (by decide)
      (by decide)).1 (by decide)]
    decide
  · rw [(C6_century 2026 ("AAAA990101HDFBBBAZ".data) 1 1 99 (by decide) (by decide)
      (by decide)).2 (by decide) (by decide)]
    decide

/-- Counterexample for C7: the claim says a non-numeric date substring
fails with `CURPDateError`; on the code `POPCA90709MGTSRL02` (letter `A`
in the year field) parsing fails with the generic base `CURPValueError`,
which is a different exception type. -/
theorem C7_counterexample :
    parse_birth_date 2026 ("POPCA90709MGTSRL02".data) = Except.error CURPError.valueError ∧
    CURPError.valueError ≠ CURPError.dateError := by decide

/-- Claim C7 (amended): Birth-date parsing fails with the generic
`CURPValueError` (the base class, not `CURPDateError`) whenever one of the
three 2-character year/month/day substrings is non-numeric, and with
`CURPDateError` whenever the three numbers do not form a valid calendar
date; no birth date is produced in either case. -/
theorem C7_date_errors (todayYear : Nat) (c : List Char) (h18 : c.length = 18)
    (hcs : ∀ ch ∈ c, ch ∈ CHARSET) :
    ((int2 (c.getD 8 ' ') (c.getD 9 ' ') = none ∨ int2 (c.getD 6 ' ') (c.getD 7 ' ') = none ∨
        int2 (c.getD 4 ' ') (c.getD 5 ' ') = none) →
      parse_birth_date todayYear c = Except.error CURPError.valueError)
    ∧ (∀ day month year, int2 (c.getD 8 ' ') (c.getD 9 ' ') = some day →
        int2 (c.getD 6 ' ') (c.getD 7 ' ') = some month →
        int2 (c.getD 4 ' ') (c.getD 5 ' ') = some year →
        valid_date (year + birth_century todayYear (c.getD 16 ' ') year * 100) month day =
          false →
        parse_birth_date todayYear c = Except.error CURPError.dateError) := by
  constructor
  · intro hcase
    rcases hcase with h8 | h6 | h4
    · simp only [parse_birth_date, h8]
    · cases hh : int2 (c.getD 8 ' ') (c.getD 9 ' ') with
      | none => simp only [parse_birth_date, hh]
      | some d => simp only [parse_birth_date, hh, h6]
    · cases hh : int2 (c.getD 8 ' ') (c.getD 9 ' ') with
      | none => simp only [parse_birth_date, hh]
      | some d =>
        cases hh6 : int2 (c.getD 6 ' ') (c.getD 7 ' ') with
        | none => simp only [parse_birth_date, hh, hh6]
        | some m => simp only [parse_birth_date, hh, hh6, h4]
  · intro d m y h8 h6 h4 hvd
    simp only [parse_birth_date, h8, h6, h4, hvd]
    simp

/-- Witness for C7 (for the amended claim): a letter in the year field
gives `CURPValueError`; April 31 gives `CURPDateError`. -/
theorem C7_date_errors_witness :
    parse_birth_date 2026 ("MAGEA11117MMNCRS05".data) = Except.error CURPError.valueError ∧
    parse_birth_date 2026 ("POPC990431HDFTRL0Z".data) = Except.error CURPError.dateError :=
  ⟨(C7_date_errors 2026 ("MAGEA11117MMNCRS05".data) (by decide) (by decide)).1 (by decide),
   (C7_date_errors 2026 ("POPC990431HDFTRL0Z".data) (by decide) (by decide)).2 31 4 99
     (by decide) (by decide) (by decide) (by decide)⟩

/-- Claim C2: For every entry `(skeleton, vowels)` of the profanity table and
every constructed CURP whose first four characters equal that skeleton,
`primer_apellido_valido` accepts every candidate surname whose features
char equals `code[0]`, whose consonant equals `code[13]`, and whose vowel
is a member of `vowels`, even though that vowel differs from the literal
`X` at `code[1]`. -/
theorem C2_profanity_fallback (sk vs : List Char) (hmem : (sk, vs) ∈ altisonantes)
    (todayYear : Nat) (c : List Char) (n pa sa nc : Option (List Char)) (d : CURPData)
    (hctor : curp_init todayYear c n pa sa nc = Except.ok d)
    (htake : c.take 4 = sk) (w : List Char)
    (hchar : (word_features w ignored_words special_chars).char = c.getD 0 ' ')
    (hcons : (word_features w ignored_words special_chars).consonant = c.getD 13 ' ')
    (hvow : (word_features w ignored_words special_chars).vowel ∈ vs)
    (hdiff : (word_features w ignored_words special_chars).vowel ≠ c.getD 1 ' ') :
    primer_apellido_valido c w = true := by
  have hsk : sk = ("BXCA".data) ∧ vs = ['A'] := by
    simpa [altisonantes, Prod.ext_iff] using hmem
  obtain ⟨h1, h2⟩ := hsk
  subst h1
  subst h2
  have hdl : dictLookup ("BXCA".data) altisonantes = some ['A'] := rfl
  have hv : (word_features w ignored_words special_chars).vowel = 'A' := by
    simpa using hvow
  simp only [primer_apellido_valido, htake, hdl, ← hchar, ← hcons, hv]
  simp

/-- Witness for C2: a constructed CURP starting with the censored skeleton
`BXCA` accepts the surname `BACA` (real vowel `A`). -/
theorem C2_profanity_fallback_witness :
    primer_apellido_valido ("BXCA990101HDFCXX04".data) ("BACA".data) = true :=
  C2_profanity_fallback ("BXCA".data) ['A'] (by decide) 2026
    ("BXCA990101HDFCXX04".data) none none none none
    ⟨"BXCA990101HDFCXX04".data, (1999, 1, 1), Sexo.HOMBRE,
      ("Ciudad de México".data, some ("MX-CMX".data)), none, none, none⟩
    (by decide) (by decide) ("BACA".data) (by decide) (by decide) (by decide) (by decide)

/-- Claim C10: A word whose folded uppercase form is in the ignored-words
set is only pushed onto the buffer: the parse state and all four buckets
are unchanged, so such a word never reaches a per-part matcher and never
triggers a state transition in full-name mode. -/
theorem C10_ignored_buffered (c : List Char) (acc : NCAcc) (w : List Char)
    (h : uniUp w ∈ ignored_words) :
    nclStep c acc w = some { acc with buffer := acc.buffer ++ [w] } ∧
    ∀ acc', nclStep c acc w = some acc' →
      acc'.state = acc.state ∧ acc'.bNone = acc.bNone ∧ acc'.bGiven = acc.bGiven ∧
        acc'.bFirst = acc.bFirst ∧ acc'.bSecond = acc.bSecond := by
  have h1 : nclStep c acc w = some { acc with buffer := acc.buffer ++ [w] } := by
    simp [nclStep, h]
  refine ⟨h1, fun acc' ha => ?_⟩
  rw [h1] at ha
  injection ha with ha'
  subst ha'
  exact ⟨rfl, rfl, rfl, rfl, rfl⟩

/-- Witness for C10: `DAS` is buffered without a state change, although
the per-part second-surname validator accepts `DAS` against a code with
`D`/`S` in the surname-B fields (the retained-final-piece rule). -/
theorem C10_ignored_buffered_witness :
    nclStep ("TAXA990915MNEMXM06".data) initAcc ("DAS".data) =
      some { initAcc with buffer := initAcc.buffer ++ ["DAS".data] } ∧
    segundo_apellido_valido ("AADA990101HDFXSX09".data) ("DAS".data) = true :=
  ⟨(C10_ignored_buffered ("TAXA990915MNEMXM06".data) initAcc ("DAS".data) (by decide)).1,
   by decide⟩

theorem curp_init_names_nc_irrel (c : List Char) (bd : Nat × Nat × Nat) (sx : Sexo)
    (rg : List Char × Option (List Char)) (n pa sa nc1 nc2 : Option (List Char))
    (hno : ¬(n = none ∧ pa = none ∧ sa = none)) :
    curp_init_names c bd sx rg n pa sa nc1 = curp_init_names c bd sx rg n pa sa nc2 := by
  unfold curp_init_names
  split
  · rfl
  · split
    · rfl
    · split
      · rfl
      · rw [if_neg hno, if_neg hno]

theorem curp_init_names_name_none (c : List Char) (bd : Nat × Nat × Nat) (sx : Sexo)
    (rg : List Char × Option (List Char)) (pa sa nc : Option (List Char)) (d : CURPData)
    (hno : ¬((none : Option (List Char)) = none ∧ pa = none ∧ sa = none))
    (hd : curp_init_names c bd sx rg none pa sa nc = Except.ok d) : d.name = none := by
  unfold curp_init_names at hd
  simp only [check_nombre] at hd
  split at hd
  · simp at hd
  · split at hd
    · simp at hd
    · split at hd
      · next h => exact absurd ⟨rfl, h.2⟩ hno
      · injection hd with hd'
        rw [← hd']

theorem curp_init_names_primer_none (c : List Char) (bd : Nat × Nat × Nat) (sx : Sexo)
    (rg : List Char × Option (List Char)) (n sa nc : Option (List Char)) (d : CURPData)
    (hno : ¬(n = none ∧ (none : Option (List Char)) = none ∧ sa = none))
    (hd : curp_init_names c bd sx rg n none sa nc = Except.ok d) : d.firstSurname = none := by
  unfold curp_init_names at hd
  simp only [check_primer] at hd
  split at hd
  · simp at hd
  · split at hd
    · simp at hd
    · split at hd
      · next h => exact absurd ⟨h.1, rfl, h.2.2⟩ hno
      · injection hd with hd'
        rw [← hd']

theorem curp_init_names_segundo_none (c : List Char) (bd : Nat × Nat × Nat) (sx : Sexo)
    (rg : List Char × Option (List Char)) (n pa nc : Option (List Char)) (d : CURPData)
    (hno : ¬(n = none ∧ pa = none ∧ (none : Option (List Char)) = none))
    (hd : curp_init_names c bd sx rg n pa none nc = Except.ok d) : d.secondSurname = none := by
  unfold curp_init_names at hd
  simp only [check_segundo] at hd
  split at hd
  · simp at hd
  · split at hd
    · simp at hd
    · split at hd
      · next h => exact absurd ⟨h.1, h.2.1, rfl⟩ hno
      · injection hd with hd'
        rw [← hd']

/-- Claim C9: When at least one of the three name parts is supplied, the
`nombre_completo` argument has no effect at all: construction yields the
same outcome for any two values of it, and on success the parts that were
not supplied are left unset. -/
theorem C9_fullname_ignored (todayYear : Nat) (c : List Char)
    (n pa sa nc1 nc2 : Option (List Char))
    (h : n ≠ none ∨ pa ≠ none ∨ sa ≠ none) :
    curp_init todayYear c n pa sa nc1 = curp_init todayYear c n pa sa nc2 ∧
    ∀ d, curp_init todayYear c n pa sa nc1 = Except.ok d →
      (n = none → d.name = none) ∧ (pa = none → d.firstSurname = none) ∧
        (sa = none → d.secondSurname = none) := by
  have hno : ¬(n = none ∧ pa = none ∧ sa = none) := by
    rcases h with h | h | h <;> intro hc
    · exact h hc.1
    · exact h hc.2.1
    · exact h hc.2.2
  constructor
  · unfold curp_init
    split
    · rfl
    · split
      · rfl
      · split
        · rfl
        · split
          · rfl
          · split
            · rfl
            · split
              · rfl
              · split
                · rfl
                · exact curp_init_names_nc_irrel _ _ _ _ _ _ _ _ _ hno
  · intro d hd
    unfold curp_init at hd
    split at hd
    · simp at hd
    · split at hd
      · simp at hd
      · split at hd
        · simp at hd
        · split at hd
          · simp at hd
          · split at hd
            · simp at hd
            · split at hd
              · simp at hd
              · split at hd
                · simp at hd
                · refine ⟨fun hn => ?_, fun hp => ?_, fun hs => ?_⟩
                  · subst hn
                    exact curp_init_names_name_none _ _ _ _ _ _ _ _ hno hd
                  · subst hp
                    exact curp_init_names_primer_none _ _ _ _ _ _ _ _ hno hd
                  · subst hs
                    exact curp_init_names_segundo_none _ _ _ _ _ _ _ _ hno hd

/-- Numeric index of a parse state (used to state the bucket invariant). -/
def stIdx : NameParseState → Nat
  | .NONE => 0
  | .GIVEN_NAMES => 1
  | .FIRST_SURNAME => 2
  | .SECOND_SURNAME => 3

/-- Buckets beyond the current state are still empty. -/
def bucketsOK (acc : NCAcc) : Prop :=
  (stIdx acc.state < 3 → acc.bSecond = []) ∧ (stIdx acc.state < 2 → acc.bFirst = [])

theorem stIdx_nextState (st : NameParseState) : stIdx st ≤ stIdx (nextState st) := by
  cases st <;> simp [stIdx, nextState]

theorem nclPlace_bucketsOK (acc : NCAcc) (st : NameParseState) (w : List Char)
    (hOK : bucketsOK acc) (hle : stIdx acc.state ≤ stIdx st) :
    bucketsOK (nclPlace acc st w) := by
  obtain ⟨b0, b1, b2, b3, buf, st0⟩ := acc
  obtain ⟨h3, h2⟩ := hOK
  cases st0 <;> cases st <;>
    simp_all [bucketsOK, nclPlace, bucketExtend, stIdx]

theorem nclStep_bucketsOK (c : List Char) (acc acc' : NCAcc) (w : List Char)
    (h : nclStep c acc w = some acc') (hOK : bucketsOK acc) : bucketsOK acc' := by
  unfold nclStep at h
  by_cases h1 : uniUp w ∈ ignored_words
  · rw [if_pos h1] at h
    injection h with h'
    subst h'
    exact hOK
  · rw [if_neg h1] at h
    by_cases h2 : nclValidation c acc.state w = true
    · rw [if_pos h2] at h
      injection h with h'
      subst h'
      exact nclPlace_bucketsOK _ _ _ hOK (stIdx_nextState _)
    · rw [if_neg h2] at h
      by_cases h3 : acc.state = NameParseState.NONE ∧ uniUp w ∉ ignored_names
      · rw [if_pos h3] at h
        cases h
      · rw [if_neg h3] at h
        injection h with h'
        subst h'
        exact nclPlace_bucketsOK _ _ _ hOK (le_refl _)

theorem nclRun_bucketsOK (c : List Char) : ∀ (ws : List (List Char)) (acc acc' : NCAcc),
    bucketsOK acc → nclRun c acc ws = some acc' → bucketsOK acc' := by
  intro ws
  induction ws with
  | nil =>
    intro acc acc' hOK h
    injection h with h'
    subst h'
    exact hOK
  | cons w ws ih =>
    intro acc acc' hOK h
    unfold nclRun at h
    cases hs : nclStep c acc w with
    | none =>
      rw [hs] at h
      simp at h
    | some acc1 =>
      rw [hs] at h
      exact ih acc1 acc' (nclStep_bucketsOK c acc acc1 w hs hOK) h

theorem segundo_vacio_iff (c : List Char) :
    segundo_apellido_valido c [] = true ↔
      (c.getD 2 ' ' = 'X' ∧ c.getD 14 ' ' = 'X') := by
  show ((c.getD 2 ' ' == 'X') && (c.getD 14 ' ' == 'X')) = true ↔ _
  simp

theorem dictLookup_altisonantes {k : List Char} {vs : List Char}
    (h : dictLookup k altisonantes = some vs) : vs = ['A'] := by
  simp only [altisonantes, dictLookup] at h
  split at h
  · injection h with h'
    exact h'.symm
  · cases h

theorem primer_vacio_iff (c : List Char) :
    primer_apellido_valido c [] = true ↔
      (c.getD 0 ' ' = 'X' ∧ c.getD 13 ' ' = 'X' ∧ c.getD 1 ' ' = 'X') := by
  have hwf : word_features [] ignored_words special_chars = ⟨'X', 'X', 'X'⟩ := rfl
  simp only [primer_apellido_valido, hwf]
  cases hdl : dictLookup (c.take 4) altisonantes with
  | none =>
    by_cases h0 : c.getD 0 ' ' = 'X' <;> by_cases h13 : c.getD 13 ' ' = 'X' <;>
      by_cases h1 : c.getD 1 ' ' = 'X' <;> simp [h0, h13, h1, and_assoc]
  | some vs =>
    rw [dictLookup_altisonantes hdl]
    by_cases h0 : c.getD 0 ' ' = 'X' <;> by_cases h13 : c.getD 13 ' ' = 'X' <;>
      by_cases h1 : c.getD 1 ' ' = 'X' <;> simp [h0, h13, h1, and_assoc]

theorem primer_apellido_vacio_iff (c : List Char) :
    primer_apellido_vacio c = true ↔
      (c.getD 2 ' ' = 'X' ∧ c.getD 14 ' ' = 'X' ∧ c.getD 0 ' ' = 'X' ∧
        c.getD 13 ' ' = 'X' ∧ c.getD 1 ' ' = 'X') := by
  unfold primer_apellido_vacio segundo_apellido_vacio
  rw [Bool.and_eq_true]
  constructor
  · rintro ⟨hs, hp⟩
    obtain ⟨h2, h14⟩ := (segundo_vacio_iff c).mp hs
    obtain ⟨h0, h13, h1⟩ := (primer_vacio_iff c).mp hp
    exact ⟨h2, h14, h0, h13, h1⟩
  · rintro ⟨h2, h14, h0, h13, h1⟩
    exact ⟨(segundo_vacio_iff c).mpr ⟨h2, h14⟩, (primer_vacio_iff c).mpr ⟨h0, h13, h1⟩⟩

theorem nclFinalize_FS (c : List Char) (acc : NCAcc)
    (hst : acc.state = NameParseState.FIRST_SURNAME) :
    nclFinalize c acc =
      if segundo_apellido_vacio c then
        some (joinSpace (acc.bNone ++ acc.bGiven),
              joinSpace (acc.bFirst ++ acc.buffer), joinSpace acc.bSecond)
      else none := by
  obtain ⟨b0, b1, b2, b3, buf, st⟩ := acc
  simp only at hst
  subst hst
  simp [nclFinalize, bucketExtend]

theorem nclFinalize_GN (c : List Char) (acc : NCAcc)
    (hst : acc.state = NameParseState.GIVEN_NAMES) :
    nclFinalize c acc =
      if primer_apellido_vacio c then
        some (joinSpace (acc.bNone ++ (acc.bGiven ++ acc.buffer)),
              joinSpace acc.bFirst, joinSpace acc.bSecond)
      else none := by
  obtain ⟨b0, b1, b2, b3, buf, st⟩ := acc
  simp only at hst
  subst hst
  simp [nclFinalize, bucketExtend]

/-- Claim C3: For every constructed CURP, `segundo_apellido_valido("")`
succeeds iff offsets 2 and 14 are both `X`; consequently a full-name pass
ending in `FIRST_SURNAME` succeeds exactly under that condition (returning
`""` for the missing second surname rather than an error), and a pass
ending in `GIVEN_NAMES` succeeds exactly when the first-surname fields
(offsets 0, 13 and the vowel at 1) are also `X` — the empty-surname rules
cascading. -/
theorem C3_empty_second_surname (todayYear : Nat) (c : List Char) (d : CURPData)
    (hctor : curp_init todayYear c none none none none = Except.ok d) :
    (segundo_apellido_valido c [] = true ↔
      (c.getD 2 ' ' = 'X' ∧ c.getD 14 ' ' = 'X'))
    ∧ (∀ (nc : List Char) (acc : NCAcc),
        nclRun c initAcc (splitWs nc) = some acc →
        (acc.state = NameParseState.FIRST_SURNAME →
          ((c.getD 2 ' ' = 'X' ∧ c.getD 14 ' ' = 'X') →
            ∃ g f, nombre_completo_valido c nc = some (g, f, []))
          ∧ (¬(c.getD 2 ' ' = 'X' ∧ c.getD 14 ' ' = 'X') →
            nombre_completo_valido c nc = none))
        ∧ (acc.state = NameParseState.GIVEN_NAMES →
          ((nombre_completo_valido c nc).isSome = true ↔
            (c.getD 2 ' ' = 'X' ∧ c.getD 14 ' ' = 'X' ∧ c.getD 0 ' ' = 'X' ∧
              c.getD 13 ' ' = 'X' ∧ c.getD 1 ' ' = 'X')))) := by
  refine ⟨segundo_vacio_iff c, fun nc acc hrun => ?_⟩
  have hOK : bucketsOK acc :=
    nclRun_bucketsOK c (splitWs nc) initAcc acc ⟨fun _ => rfl, fun _ => rfl⟩ hrun
  have hncv : nombre_completo_valido c nc = nclFinalize c acc := by
    unfold nombre_completo_valido
    rw [hrun]
    rfl
  constructor
  · intro hst
    have hb2 : acc.bSecond = [] := hOK.1 (by rw [hst]; simp [stIdx])
    constructor
    · intro hX
      have hsv : segundo_apellido_vacio c = true := (segundo_vacio_iff c).mpr hX
      refine ⟨joinSpace (acc.bNone ++ acc.bGiven),
        joinSpace (acc.bFirst ++ acc.buffer), ?_⟩
      rw [hncv, nclFinalize_FS c acc hst, if_pos hsv, hb2]
      rfl
    · intro hnX
      have hsv : segundo_apellido_vacio c = false :=
        eq_false_of_ne_true (fun ht => hnX ((segundo_vacio_iff c).mp ht))
      rw [hncv, nclFinalize_FS c acc hst, hsv]
      rfl
  · intro hst
    rw [hncv, nclFinalize_GN c acc hst]
    cases hpv : primer_apellido_vacio c with
    | true =>
      obtain ⟨h2, h14, h0, h13, h1⟩ := (primer_apellido_vacio_iff c).mp hpv
      exact iff_of_true rfl ⟨h2, h14, h0, h13, h1⟩
    | false =>
      have hnc : ¬(c.getD 2 ' ' = 'X' ∧ c.getD 14 ' ' = 'X' ∧ c.getD 0 ' ' = 'X' ∧
          c.getD 13 ' ' = 'X' ∧ c.getD 1 ' ' = 'X') := by
        intro hc
        rw [(primer_apellido_vacio_iff c).mpr hc] at hpv
        cases hpv
      exact iff_of_false (by simp) hnc

/-- Witness for C3: the fixture `TAXA990915MNEMXM06` (second-surname
fields `X`/`X`) with full name `AMBER NICOLE TAMAYO`: the pass ends in
`FIRST_SURNAME` and returns `""` for the second surname. -/
theorem C3_empty_second_surname_witness :
    ∃ g f, nombre_completo_valido ("TAXA990915MNEMXM06".data)
      ("AMBER NICOLE TAMAYO".data) = some (g, f, []) :=
  (((C3_empty_second_surname 2026 ("TAXA990915MNEMXM06".data)
      ⟨"TAXA990915MNEMXM06".data, (1999, 9, 15), Sexo.MUJER, ("Extranjero".data, none),
        none, none, none⟩ (by decide)).2
    ("AMBER NICOLE TAMAYO".data)
    ⟨[], ["AMBER".data, "NICOLE".data], ["TAMAYO".data], [], [],
      NameParseState.FIRST_SURNAME⟩ (by decide)).1 rfl).1 (by decide)

/-- Witness for C9: with the given name supplied, changing
`nombre_completo` from `none` to an inconsistent string leaves the
construction outcome unchanged. -/
theorem C9_fullname_ignored_witness :
    curp_init 2026 ("POPC990709MGTSRL02".data) (some ("CLAUDIA LEONOR".data)) none none
        none =
      curp_init 2026 ("POPC990709MGTSRL02".data) (some ("CLAUDIA LEONOR".data)) none none
        (some ("ZZZ".data)) :=
  (C9_fullname_ignored 2026 ("POPC990709MGTSRL02".data) (some ("CLAUDIA LEONOR".data))
    none none none (some ("ZZZ".data)) (Or.inl (by decide))).1

end CURPSuite
